import Mathlib

/-
Verification development for the MRI brain-tumor segmentation backend
(volumetric slicing, coordinate mapping, prediction normalization,
metrics, and sweep generation).

Shallow embedding conventions:
* numpy arrays are modelled as structures carrying their dimensions and a
  total data function; image intensities are rationals, class-label
  volumes are integers (numpy int16 casts are modelled by wrapping into
  [-32768, 32768)).
* cv2.resize with INTER_NEAREST maps output pixel (r, c) to the source
  pixel (r * srcRows / dstRows, c * srcCols / dstCols) (integer floor
  division), which is cv2's nearest-neighbor index rule; the
  float32 roundtrip the code performs around the resize is exact on the
  int16 label range and is therefore dropped.
* fallible code is modelled with Except; python dict session state is an
  explicit SessionState record threaded through the functions.
* python round(x, 2) and np.round are modelled over the rationals with
  round-half-to-even, matching their documented tie behavior.
-/

namespace MedSeg

/-- 2D numpy array: row/column extents plus a total data function. -/
structure Arr2 (α : Type) where
  rows : Nat
  cols : Nat
  data : Nat → Nat → α

/-- 3D numpy array. -/
structure Arr3 (α : Type) where
  d0 : Nat
  d1 : Nat
  d2 : Nat
  data : Nat → Nat → Nat → α

/-- `.shape` of a 2D array. -/
def Arr2.shape {α : Type} (a : Arr2 α) : Nat × Nat := (a.rows, a.cols)

/-- `.shape` of a 3D array. -/
def Arr3.shape {α : Type} (a : Arr3 α) : Nat × Nat × Nat := (a.d0, a.d1, a.d2)

/-- `.size` of a 3D array (total voxel count). -/
def Arr3.size {α : Type} (a : Arr3 α) : Nat := a.d0 * a.d1 * a.d2

/-- np.rot90 of a 2D array: `rot90(A)[i, j] = A[j, cols - 1 - i]`. -/
def Arr2.rot90 {α : Type} (a : Arr2 α) : Arr2 α :=
  ⟨a.cols, a.rows, fun i j => a.data j (a.cols - 1 - i)⟩

/-- `a[:, :, k]`. -/
def Arr3.sliceAx {α : Type} (a : Arr3 α) (k : Nat) : Arr2 α :=
  ⟨a.d0, a.d1, fun i j => a.data i j k⟩

/-- `a[i, :, :]`. -/
def Arr3.sliceSag {α : Type} (a : Arr3 α) (i : Nat) : Arr2 α :=
  ⟨a.d1, a.d2, fun p q => a.data i p q⟩

/-- `a[:, j, :]`. -/
def Arr3.sliceCor {α : Type} (a : Arr3 α) (j : Nat) : Arr2 α :=
  ⟨a.d0, a.d2, fun p q => a.data p j q⟩

/-- Pointwise value map (numpy `astype`). -/
def Arr2.mapVals {α β : Type} (a : Arr2 α) (f : α → β) : Arr2 β :=
  ⟨a.rows, a.cols, fun i j => f (a.data i j)⟩

/-- numpy int16 cast: wrap an integer into [-32768, 32768). -/
def toInt16 (x : Int) : Int := (x + 32768) % 65536 - 32768

/-- `int(np.clip(x, 0, m - 1))` used as a nonnegative index
(the intended use has `1 ≤ m`). -/
def clipIdx (x : Int) (m : Nat) : Nat := (min (max x 0) ((m : Int) - 1)).toNat

/-- cv2.resize(src, (dstW, dstH), interpolation=cv2.INTER_NEAREST):
output has dstH rows and dstW columns, each output pixel replicating the
source pixel at the floor-scaled coordinates. -/
def cv2ResizeNearest {α : Type} (src : Arr2 α) (dstW dstH : Nat) : Arr2 α :=
  ⟨dstH, dstW, fun r c => src.data (r * src.rows / dstH) (c * src.cols / dstW)⟩

/-- The three anatomical planes. -/
inductive Plane
  | Axial
  | Sagittal
  | Coronal
deriving DecidableEq

/-- Extent of the image volume along the plane's slicing axis
(`img.shape[2]`, `img.shape[0]`, `img.shape[1]` respectively). -/
def planeExtent {α : Type} (img : Arr3 α) (plane : Plane) : Nat :=
  match plane with
  | .Axial => img.d2
  | .Sagittal => img.d0
  | .Coronal => img.d1

/-- The per-plane slicing/clamping part of extract_slice_by_plane
(image_processing_helpers.py, lines 45-62): clamp the index to the image
extent, select the slice; the prediction index clamps the already-clamped
index to the prediction volume's own extent; sagittal and coronal slices
are rotated 90 degrees. -/
def raw_slices (img : Arr3 ℚ) (pred_vol : Arr3 ℤ) (plane : Plane) (slice_idx : Int) :
    Arr2 ℚ × Arr2 ℤ :=
  match plane with
  | .Axial =>
    let si := clipIdx slice_idx img.d2
    let pidx := clipIdx (si : Int) pred_vol.d2
    (img.sliceAx si, pred_vol.sliceAx pidx)
  | .Sagittal =>
    let si := clipIdx slice_idx img.d0
    let pidx := clipIdx (si : Int) pred_vol.d0
    ((img.sliceSag si).rot90, (pred_vol.sliceSag pidx).rot90)
  | .Coronal =>
    let si := clipIdx slice_idx img.d1
    let pidx := clipIdx (si : Int) pred_vol.d1
    ((img.sliceCor si).rot90, (pred_vol.sliceCor pidx).rot90)

/-- extract_slice_by_plane (image_processing_helpers.py, lines 43-72):
per-plane clamped slice extraction followed by the shape-reconciliation
step: if the prediction slice's shape differs from the image slice's, it
is resized with nearest-neighbor interpolation to the image slice's shape
(astype float32 before / astype int16 after, the latter modelled by
toInt16). -/
def extract_slice_by_plane (img : Arr3 ℚ) (pred_vol : Arr3 ℤ) (plane : Plane)
    (slice_idx : Int) : Arr2 ℚ × Arr2 ℤ :=
  let sp := raw_slices img pred_vol plane slice_idx
  if sp.2.shape = sp.1.shape then sp
  else (sp.1, (cv2ResizeNearest sp.2 sp.1.cols sp.1.rows).mapVals toInt16)

/-- np.zeros_like for 2D integer arrays. -/
def np_zeros_like (a : Arr2 ℤ) : Arr2 ℤ := ⟨a.rows, a.cols, fun _ _ => 0⟩

/-- Decimal digits to a natural number. -/
def digitsToNat (l : List Char) : Nat :=
  l.foldl (fun acc c => acc * 10 + (c.toNat - 48)) 0

/-- int(selected_class) for the decimal strings the else-branch is
called with (python int() raises on a non-numeric string, a case no
caller exercises). -/
def strToInt (s : String) : Int :=
  match s.data with
  | '-' :: rest => -(digitsToNat rest : Int)
  | l => (digitsToNat l : Int)

/-- filter_prediction_by_class (image_processing_helpers.py, lines 23-31):
"All" returns the slice unchanged, "None" returns zeros_like, any other
string is parsed as a class label v and np.where(pred == v, pred, 0) is
returned. -/
def filter_prediction_by_class (pred_slice : Arr2 ℤ) (selected_class : String) : Arr2 ℤ :=
  if selected_class = "All" then pred_slice
  else if selected_class = "None" then np_zeros_like pred_slice
  else
    let class_value := strToInt selected_class
    ⟨pred_slice.rows, pred_slice.cols,
      fun i j => if pred_slice.data i j = class_value then pred_slice.data i j else 0⟩

/-- np.sum(pred_vol == c): count of voxels holding label c. -/
def countClass (v : Arr3 ℤ) (c : Int) : Nat :=
  ∑ i ∈ Finset.range v.d0, ∑ j ∈ Finset.range v.d1, ∑ k ∈ Finset.range v.d2,
    if v.data i j k = c then 1 else 0

/-- np.sum(pred_vol > 0): count of voxels holding a positive label. -/
def countTumor (v : Arr3 ℤ) : Nat :=
  ∑ i ∈ Finset.range v.d0, ∑ j ∈ Finset.range v.d1, ∑ k ∈ Finset.range v.d2,
    if 0 < v.data i j k then 1 else 0

/-- Round-half-to-even on the rationals; models both python round() and
np.round, whose tie rule is half-to-even. -/
def roundHalfEven (q : ℚ) : ℤ :=
  if Int.fract q = 1 / 2 then (if 2 ∣ ⌊q⌋ then ⌊q⌋ else ⌊q⌋ + 1) else round q

/-- python round(x, 2). -/
def pyRound2 (q : ℚ) : ℚ := (roundHalfEven (q * 100) : ℚ) / 100

/-- One per-class (or total-tumor) metrics record, as built by
metrics_helpers.py. -/
structure ClassMetrics where
  voxel_count : Nat
  volume_mm3 : ℚ
  volume_cm3 : ℚ
  percentage : ℚ
deriving DecidableEq

/-- The loop body of calculate_class_metrics for one class id. -/
def classMetricsFor (pred_vol : Arr3 ℤ) (voxel_volume_mm3 : ℚ) (class_id : ℤ) :
    ClassMetrics :=
  let total_voxels := pred_vol.size
  let class_voxels := countClass pred_vol class_id
  let class_volume_mm3 : ℚ := (class_voxels : ℚ) * voxel_volume_mm3
  let class_percentage : ℚ :=
    if 0 < total_voxels then (class_voxels : ℚ) / (total_voxels : ℚ) * 100 else 0
  ⟨class_voxels, pyRound2 class_volume_mm3, pyRound2 (class_volume_mm3 / 1000),
    pyRound2 class_percentage⟩

/-- calculate_class_metrics (metrics_helpers.py, lines 8-26): the dict
{1: ..., 2: ..., 3: ...} is modelled as an association list in loop
order. -/
def calculate_class_metrics (pred_vol : Arr3 ℤ) (voxel_volume_mm3 : ℚ) :
    List (ℤ × ClassMetrics) :=
  [1, 2, 3].map fun class_id => (class_id, classMetricsFor pred_vol voxel_volume_mm3 class_id)

/-- calculate_total_tumor_metrics (metrics_helpers.py, lines 29-42). -/
def calculate_total_tumor_metrics (pred_vol : Arr3 ℤ) (voxel_volume_mm3 : ℚ) :
    ClassMetrics :=
  let total_voxels := pred_vol.size
  let total_tumor_voxels := countTumor pred_vol
  let total_tumor_volume_mm3 : ℚ := (total_tumor_voxels : ℚ) * voxel_volume_mm3
  let total_tumor_percentage : ℚ :=
    if 0 < total_voxels then (total_tumor_voxels : ℚ) / (total_voxels : ℚ) * 100 else 0
  ⟨total_tumor_voxels, pyRound2 total_tumor_volume_mm3,
    pyRound2 (total_tumor_volume_mm3 / 1000), pyRound2 total_tumor_percentage⟩

/-- Voxel count read out of the per-class metrics table for one class id
(dict lookup). -/
def metricsVoxelCount (ms : List (ℤ × ClassMetrics)) (c : ℤ) : Nat :=
  ((ms.lookup c).map ClassMetrics.voxel_count).getD 0

/-- The raw model output as stored in SESSION_STATE["pred_seg"]: an
ndarray of a-priori unknown rank (its shape list) with per-voxel class
probabilities; the data function carries four index slots, which is
adequate because the code only reads the data after enforcing rank 4. -/
structure RawPred where
  shape : List Nat
  data : Nat → Nat → Nat → Nat → ℚ

/-- A rank-4 array (the output grid of resize_predicted_seg). -/
structure Arr4 where
  d0 : Nat
  d1 : Nat
  d2 : Nat
  d3 : Nat
  data : Nat → Nat → Nat → Nat → ℚ

/-- The SESSION_STATE dict of utils/session.py as used by the prediction
cache (predict_seg.py and app.py). -/
structure SessionState where
  current_patient : Option String
  pred_seg : Option RawPred
  pred_can_be_displayed : Bool
  pred_gen_for_this_patient : Bool
  patient_has_changed : Bool

/-- patient_has_changed_update_token (predict_seg.py, lines 77-83). -/
def patient_has_changed_update_token (s : SessionState) : SessionState :=
  { s with patient_has_changed := true, pred_can_be_displayed := false,
           pred_gen_for_this_patient := false }

/-- predict_btn_click (predict_seg.py, lines 23-42). The external model
(predict_segmentation) is an argument `modelPredict`; the third component
counts how many times it was invoked (0 or 1). -/
def predict_btn_click (modelPredict : String → Option RawPred) (s : SessionState)
    (patient_path : String) : SessionState × Option RawPred × Nat :=
  if s.pred_gen_for_this_patient then (s, s.pred_seg, 0)
  else
    let s1 := { s with pred_seg := modelPredict patient_path,
                       pred_can_be_displayed := true,
                       pred_gen_for_this_patient := true }
    (s1, s1.pred_seg, 1)

/-- Modelled from the spec: resize_predicted_seg lives in
utils/img_processing.py, which is absent from the sources (only the
importing modules and the shape comments in gif.py remain). Per the spec's
Prediction Volume Normalizer pipeline and the (155, H, W, 4) to
(155, 240, 240, 4) shape comment, it resizes every slice's spatial grid
to 240 x 240, preserving the slice and channel axes. -/
def resize_predicted_seg (raw : RawPred) : Arr4 :=
  let n := raw.shape.getD 0 0
  let h := raw.shape.getD 1 0
  let w := raw.shape.getD 2 0
  let c := raw.shape.getD 3 0
  ⟨n, 240, 240, c, fun j r col ch => raw.data j (r * h / 240) (col * w / 240) ch⟩

/-- np.argmax over the the first n entries of f (first index attaining
the maximum, 0 on an empty range). -/
def npArgmaxIdx (f : Nat → ℚ) (n : Nat) : Nat :=
  (List.range n).foldl (fun best c => if f c > f best then c else best) 0

/-- Errors raised by get_prediction_volume (both are ValueError in the
python source) plus the cv2.error the per-layer resize raises on a
degenerate target size. -/
inductive PredError
  | predictionFailed
  | invalidShape (shape : List Nat)
  | cvError
deriving DecidableEq

/-- `resized_pred[:, :, z] = layer`. -/
def setLayerAx (a : Arr3 ℤ) (z : Nat) (layer : Arr2 ℤ) : Arr3 ℤ :=
  ⟨a.d0, a.d1, a.d2, fun i j k => if k = z then layer.data i j else a.data i j k⟩

/-- cv2.resize as actually fallible: cv2 raises cv2.error when the
requested output size or the source array is empty. -/
def cv2ResizeNearestE (src : Arr2 ℤ) (dstW dstH : Nat) : Except PredError (Arr2 ℤ) :=
  if dstW = 0 ∨ dstH = 0 ∨ src.rows = 0 ∨ src.cols = 0 then .error .cvError
  else .ok (cv2ResizeNearest src dstW dstH)

/-- The patient-switch check at the top of get_prediction_volume
(app.py, lines 315-318): a changed active patient resets the cache flags
and records the new patient. -/
def switch_patient_state (s : SessionState) (patient_path : String) : SessionState :=
  if s.current_patient = some patient_path then s
  else { patient_has_changed_update_token s with current_patient := some patient_path }

/-- argmax over the channel axis followed by the int16 cast
(`np.argmax(pred_resized, axis=3).astype(np.int16)`). -/
def argmaxClasses (a : Arr4) : Arr3 ℤ :=
  ⟨a.d0, a.d1, a.d2, fun p q r => toInt16 (npArgmaxIdx (fun ch => a.data p q r ch) a.d3)⟩

/-- `np.moveaxis(x, 0, 2)`: shape (n, H, W) becomes (H, W, n). -/
def moveaxis02 (a : Arr3 ℤ) : Arr3 ℤ :=
  ⟨a.d1, a.d2, a.d0, fun i j k => a.data k i j⟩

/-- Result record of one get_prediction_volume call: the updated session
state, the outcome, and the number of model invocations performed. -/
structure GpvOut where
  state : SessionState
  result : Except PredError (Arr3 ℤ)
  modelCalls : Nat

/-- One iteration of the shape-mismatch loop of get_prediction_volume:
`resized_pred[:, :, z] = cv2.resize(pred_vol[:, :, z], (ref[1], ref[0]),
INTER_NEAREST).astype(int16)`, threading the cv2 failure through
Except. -/
def reconcileStep (pred_vol : Arr3 ℤ) (reference_shape : Nat × Nat × Nat)
    (acc : Except PredError (Arr3 ℤ)) (z : Nat) : Except PredError (Arr3 ℤ) :=
  acc.bind fun a =>
    (cv2ResizeNearestE (pred_vol.sliceAx z) reference_shape.2.1 reference_shape.1).map
      fun layer => setLayerAx a z (layer.mapVals toInt16)

/-- The shape-mismatch branch of get_prediction_volume (app.py, lines
331-340): start from np.zeros(reference_shape, int16) and overwrite the
first min(pred depth, reference depth) layers with the nearest-neighbor
resize of the corresponding prediction layer. -/
def reconcileShape (pred_vol : Arr3 ℤ) (reference_shape : Nat × Nat × Nat) :
    Except PredError (Arr3 ℤ) :=
  let limit := min pred_vol.d2 reference_shape.2.2
  let base : Arr3 ℤ :=
    ⟨reference_shape.1, reference_shape.2.1, reference_shape.2.2, fun _ _ _ => 0⟩
  (List.range limit).foldl (reconcileStep pred_vol reference_shape) (.ok base)

/-- The pure pipeline of get_prediction_volume after the cache
interaction (app.py, lines 320-342): None check, rank/channel
validation, resize_predicted_seg, argmax, moveaxis, and the conditional
per-layer shape reconciliation. -/
def normalizePrediction (pred_raw? : Option RawPred)
    (reference_shape : Nat × Nat × Nat) : Except PredError (Arr3 ℤ) :=
  match pred_raw? with
  | none => .error .predictionFailed
  | some pred_raw =>
    if pred_raw.shape.length ≠ 4 ∨ pred_raw.shape.getD 3 0 ≠ 4 then
      .error (.invalidShape pred_raw.shape)
    else
      let pred_vol := moveaxis02 (argmaxClasses (resize_predicted_seg pred_raw))
      if pred_vol.shape = reference_shape then .ok pred_vol
      else reconcileShape pred_vol reference_shape

/-- get_prediction_volume (app.py, lines 310-342): patient-switch check,
cached model call, then the normalization pipeline. `rootOf` stands for
the os.path manipulation turning the patient path into the patient root
passed to the model. -/
def get_prediction_volume (modelPredict : String → Option RawPred)
    (rootOf : String → String) (s : SessionState) (patient_path : String)
    (reference_shape : Nat × Nat × Nat) : GpvOut :=
  let s0 := switch_patient_state s patient_path
  let pr := predict_btn_click modelPredict s0 (rootOf patient_path)
  ⟨pr.1, normalizePrediction pr.2.1 reference_shape, pr.2.2⟩

/-- The raw prediction value a get_prediction_volume call consumes (the
value of SESSION_STATE["pred_seg"] returned by predict_btn_click). -/
def gpvRaw (modelPredict : String → Option RawPred) (rootOf : String → String)
    (s : SessionState) (patient_path : String) : Option RawPred :=
  (predict_btn_click modelPredict (switch_patient_state s patient_path)
    (rootOf patient_path)).2.1

/-- Shape of a successful prediction result (none on error). -/
def okShape (r : Except PredError (Arr3 ℤ)) : Option (Nat × Nat × Nat) :=
  match r with
  | .ok v => some v.shape
  | .error _ => none

/-- A value usable as a segmentation class label. -/
def IsLabel (x : ℤ) : Prop := x = 0 ∨ x = 1 ∨ x = 2 ∨ x = 3

instance (x : ℤ) : Decidable (IsLabel x) := by
  unfold IsLabel
  infer_instance

/-- Labels of a successful prediction result at one voxel (trivially
true on error). -/
def okLabels (r : Except PredError (Arr3 ℤ)) (i j k : Nat) : Prop :=
  match r with
  | .ok v => IsLabel (v.data i j k)
  | .error _ => True

/-- create_slicer_function (image_processing_helpers.py, lines 75-87):
the slicer applied at one index (no clamping here). -/
def gif_slicer (img : Arr3 ℚ) (pred_vol : Arr3 ℤ) (plane : Plane) (i : Nat) :
    Arr2 ℚ × Arr2 ℤ :=
  match plane with
  | .Axial => (img.sliceAx i, pred_vol.sliceAx i)
  | .Sagittal => ((img.sliceSag i).rot90, (pred_vol.sliceSag i).rot90)
  | .Coronal => ((img.sliceCor i).rot90, (pred_vol.sliceCor i).rot90)

/-- get_gif_animation_params (image_processing_helpers.py, lines 90-98):
(stride, fps) per plane. -/
def get_gif_animation_params (plane : Plane) (num_slices : Nat) : Nat × Nat :=
  match plane with
  | .Axial => (max 1 (num_slices / 60), 15)
  | .Sagittal => (max 1 (num_slices / 100), 13)
  | .Coronal => (max 1 (num_slices / 100), 13)

/-- python range(0, n, step) for step ≥ 1, as the list of sampled
indices. -/
def pyRange (n step : Nat) : List Nat :=
  (List.range ((n + step - 1) / step)).map (fun t => t * step)

/-- One frame of the sweep loop in the get_gif route (app.py, lines
533-553): slice, reconcile shapes exactly as the loop body does, filter
by class. Rendering the pair to an RGB raster (matplotlib) and GIF
encoding are out of scope per the spec; a frame is modelled by the data
the renderer consumes. -/
def gif_frame (img : Arr3 ℚ) (pred_vol : Arr3 ℤ) (plane : Plane)
    (selected_class : String) (idx : Nat) : Arr2 ℚ × Arr2 ℤ :=
  let sp := gif_slicer img pred_vol plane idx
  let slice_pred :=
    if sp.2.shape = sp.1.shape then sp.2
    else (cv2ResizeNearest sp.2 sp.1.cols sp.1.rows).mapVals toInt16
  (sp.1, filter_prediction_by_class slice_pred selected_class)

/-- The error the get_gif route returns when no frames were generated. -/
inductive GifError
  | noFrames (num_slices : Nat)
deriving DecidableEq

/-- The frame list built by the get_gif route. -/
def get_gif_frames (img : Arr3 ℚ) (pred_vol : Arr3 ℤ) (plane : Plane)
    (selected_class : String) : List (Arr2 ℚ × Arr2 ℤ) :=
  let num_slices := planeExtent img plane
  let stride := (get_gif_animation_params plane num_slices).1
  (pyRange num_slices stride).map (gif_frame img pred_vol plane selected_class)

/-- The sweep generator of the get_gif route (app.py, lines 506-565)
after the prediction volume has been obtained: build the sampled frame
list; if it is empty return the explicit no-frames error, otherwise the
frames and the fps. -/
def get_gif (img : Arr3 ℚ) (pred_vol : Arr3 ℤ) (plane : Plane)
    (selected_class : String) : Except GifError (List (Arr2 ℚ × Arr2 ℤ) × Nat) :=
  let num_slices := planeExtent img plane
  let frames := get_gif_frames img pred_vol plane selected_class
  let fps := (get_gif_animation_params plane num_slices).2
  if frames.length = 0 then .error (.noFrames num_slices) else .ok (frames, fps)

/-- Whether a get_gif outcome is the error case. -/
def gifFailed (r : Except GifError (List (Arr2 ℚ × Arr2 ℤ) × Nat)) : Bool :=
  match r with
  | .error _ => true
  | .ok _ => false

/-- Truncation toward zero (python int()/np int cast of a float). -/
def ratTrunc (q : ℚ) : ℤ := if 0 ≤ q then ⌊q⌋ else ⌈q⌉

/-- np.round componentwise (round half to even). -/
def npRound (q : ℚ) : ℤ := roundHalfEven q

/-- np.linalg.inv on a 4x4 rational matrix, via the adjugate formula
(exact-arithmetic idealization of the float computation; meaningful when
the determinant is nonzero, which is exactly when np.linalg.inv does not
raise LinAlgError). -/
def npLinalgInv (A : Matrix (Fin 4) (Fin 4) ℚ) : Matrix (Fin 4) (Fin 4) ℚ :=
  A.det⁻¹ • A.adjugate

/-- world_to_voxel (app.py, lines 296-307): solve
voxel = inv(affine) . [x, y, z, 1], keep the first three components,
np.round and cast to int; the except-branch (np.linalg.inv raised, i.e.
the affine is singular) returns the raw world coordinates truncated to
integers. -/
def world_to_voxel (affine : Matrix (Fin 4) (Fin 4) ℚ) (x y z : ℚ) : ℤ × ℤ × ℤ :=
  if affine.det = 0 then (ratTrunc x, ratTrunc y, ratTrunc z)
  else
    let point : Fin 4 → ℚ := ![x, y, z, 1]
    let voxel := (npLinalgInv affine).mulVec point
    (npRound (voxel 0), npRound (voxel 1), npRound (voxel 2))

/-- The nearest in-range index to `idx` for an axis of extent `m`
(meaningful for `0 < m`): 0 below the range, `m - 1` above it. -/
def nearestInRange (idx : Int) (m : Nat) : Int :=
  if idx < 0 then 0 else (m : Int) - 1

/-- A 240 x 240 x 155 volume holding exactly 1000 voxels of class 2
(the 5 x 200 block of the first layer). -/
def c5BigVol : Arr3 ℤ :=
  ⟨240, 240, 155, fun i j k => if i < 5 ∧ j < 200 ∧ k < 1 then 2 else 0⟩

/-- A 1 x 1 x 3 volume with a single class-2 voxel; its class-2
percentage is 100/3, which the code reports rounded. -/
def c5CexVol : Arr3 ℤ :=
  ⟨1, 1, 3, fun _ _ k => if k < 1 then 2 else 0⟩

/-- A well-formed raw model output: one slice, 1 x 1 spatial grid, 4
channels. -/
def demoRawOk : RawPred := ⟨[1, 1, 1, 4], fun _ _ _ ch => if ch = 0 then 1 else 0⟩

/-- A malformed raw model output (rank 3). -/
def demoRawBad : RawPred := ⟨[3, 4, 4], fun _ _ _ _ => 0⟩

/-- The session state right after init_session_state_variables. -/
def demoState : SessionState := ⟨none, none, false, false, true⟩

/-- A model stub returning the well-formed raw output. -/
def demoModelOk : String → Option RawPred := fun _ => some demoRawOk

/-- A model stub whose prediction fails (returns None). -/
def demoModelNone : String → Option RawPred := fun _ => none

/-- A model stub returning the malformed raw output. -/
def demoModelBad : String → Option RawPred := fun _ => some demoRawBad

/-
Helper lemmas.
-/

theorem clipIdx_nearest (m : Nat) (idx : Int) (hm : 0 < m)
    (hout : idx < 0 ∨ (m : Int) ≤ idx) :
    clipIdx (nearestInRange idx m) m = clipIdx idx m := by
  unfold clipIdx nearestInRange
  rcases hout with h | h
  · rw [if_pos h]
    omega
  · rw [if_neg (by omega)]
    omega

theorem raw_slices_nearest (img : Arr3 ℚ) (pred_vol : Arr3 ℤ) (plane : Plane)
    (slice_idx : Int) (hm : 0 < planeExtent img plane)
    (hout : slice_idx < 0 ∨ (planeExtent img plane : Int) ≤ slice_idx) :
    raw_slices img pred_vol plane (nearestInRange slice_idx (planeExtent img plane)) =
      raw_slices img pred_vol plane slice_idx := by
  cases plane <;>
    simp only [raw_slices, planeExtent] at hm hout ⊢ <;>
    rw [clipIdx_nearest _ _ hm hout]

theorem pbc_pred_seg (m : String → Option RawPred) (s : SessionState) (r : String) :
    (predict_btn_click m s r).2.1 = (predict_btn_click m s r).1.pred_seg := by
  unfold predict_btn_click
  split <;> rfl

theorem pbc_flag_true (m : String → Option RawPred) (s : SessionState) (r : String) :
    (predict_btn_click m s r).1.pred_gen_for_this_patient = true := by
  unfold predict_btn_click
  split
  · assumption
  · rfl

theorem pbc_current (m : String → Option RawPred) (s : SessionState) (r : String) :
    (predict_btn_click m s r).1.current_patient = s.current_patient := by
  unfold predict_btn_click
  split <;> rfl

theorem pbc_cached (m : String → Option RawPred) (s : SessionState) (r : String)
    (h : s.pred_gen_for_this_patient = true) :
    predict_btn_click m s r = (s, s.pred_seg, 0) := by
  unfold predict_btn_click
  rw [if_pos h]

theorem pbc_calls_le (m : String → Option RawPred) (s : SessionState) (r : String) :
    (predict_btn_click m s r).2.2 ≤ 1 := by
  unfold predict_btn_click
  split <;> simp

theorem switch_current (s : SessionState) (p : String) :
    (switch_patient_state s p).current_patient = some p := by
  unfold switch_patient_state
  split
  · assumption
  · rfl

theorem switch_self (s : SessionState) (p : String) (h : s.current_patient = some p) :
    switch_patient_state s p = s := by
  unfold switch_patient_state
  rw [if_pos h]

theorem gpv_parts (m : String → Option RawPred) (rootOf : String → String)
    (s : SessionState) (p : String) (ref : Nat × Nat × Nat) :
    get_prediction_volume m rootOf s p ref =
      ⟨(predict_btn_click m (switch_patient_state s p) (rootOf p)).1,
        normalizePrediction (gpvRaw m rootOf s p) ref,
        (predict_btn_click m (switch_patient_state s p) (rootOf p)).2.2⟩ := rfl

theorem sum_ite_lt (n k : ℕ) (h : k ≤ n) :
    (∑ i ∈ Finset.range n, if i < k then (1 : ℕ) else 0) = k := by
  induction n with
  | zero =>
    have hk : k = 0 := by omega
    subst hk
    simp
  | succ m ih =>
    rw [Finset.sum_range_succ]
    by_cases hk : k ≤ m
    · rw [ih hk, if_neg (by omega)]
      omega
    · have hk1 : k = m + 1 := by omega
      subst hk1
      rw [if_pos (by omega)]
      have hall : ∀ i ∈ Finset.range m, (if i < m + 1 then (1 : ℕ) else 0) = 1 := by
        intro i hi
        exact if_pos (by have := Finset.mem_range.mp hi; omega)
      rw [Finset.sum_congr rfl hall, Finset.sum_const, Finset.card_range, smul_eq_mul,
        mul_one]

theorem c5BigVol_count : countClass c5BigVol 2 = 1000 := by
  have hrw : countClass c5BigVol 2 =
      ∑ i ∈ Finset.range 240, ∑ j ∈ Finset.range 240, ∑ k ∈ Finset.range 155,
        (if (if i < 5 ∧ j < 200 ∧ k < 1 then (2 : ℤ) else 0) = 2 then (1 : ℕ) else 0) := rfl
  have hsummand : ∀ i j k : ℕ,
      (if (if i < 5 ∧ j < 200 ∧ k < 1 then (2 : ℤ) else 0) = 2 then (1 : ℕ) else 0) =
        (if i < 5 then 1 else 0) * ((if j < 200 then 1 else 0) * (if k < 1 then 1 else 0)) := by
    intro i j k
    by_cases h1 : i < 5 <;> by_cases h2 : j < 200 <;> by_cases h3 : k < 1 <;>
      simp [h1, h2, h3]
  rw [hrw]
  simp only [hsummand, ← Finset.mul_sum, ← Finset.sum_mul]
  rw [sum_ite_lt 240 5 (by omega), sum_ite_lt 240 200 (by omega),
    sum_ite_lt 155 1 (by omega)]
  norm_num

theorem toInt16_small (x : ℤ) (h0 : 0 ≤ x) (h1 : x ≤ 3) : toInt16 x = x := by
  unfold toInt16
  rw [Int.emod_eq_of_lt (by omega) (by omega)]
  omega

theorem toInt16_label (x : ℤ) (h : IsLabel x) : IsLabel (toInt16 x) := by
  rcases h with h | h | h | h <;> subst h <;> decide

theorem foldl_argmax_cases (f : Nat → ℚ) : ∀ (l : List Nat) (b : Nat),
    l.foldl (fun best c => if f c > f best then c else best) b = b ∨
      l.foldl (fun best c => if f c > f best then c else best) b ∈ l := by
  intro l
  induction l with
  | nil => intro b; exact Or.inl rfl
  | cons c t ih =>
    intro b
    rw [List.foldl_cons]
    rcases ih (if f c > f b then c else b) with h | h
    · by_cases hc : f c > f b
      · rw [h, if_pos hc]
        exact Or.inr (List.mem_cons_self c t)
      · rw [h, if_neg hc]
        exact Or.inl rfl
    · exact Or.inr (List.mem_cons_of_mem c h)

theorem npArgmaxIdx_lt (f : Nat → ℚ) (n : Nat) (hn : 0 < n) : npArgmaxIdx f n < n := by
  unfold npArgmaxIdx
  rcases foldl_argmax_cases f (List.range n) 0 with h | h
  · rw [h]; exact hn
  · exact List.mem_range.mp h

theorem pred_vol_labels (r : RawPred) (hch : r.shape.getD 3 0 = 4) :
    ∀ i j k, IsLabel ((moveaxis02 (argmaxClasses (resize_predicted_seg r))).data i j k) := by
  intro i j k
  show IsLabel (toInt16 ((npArgmaxIdx (fun ch => (resize_predicted_seg r).data k i j ch)
    ((resize_predicted_seg r).d3) : ℕ) : ℤ))
  have hd3 : (resize_predicted_seg r).d3 = 4 := hch
  rw [hd3]
  have hlt := npArgmaxIdx_lt (fun ch => (resize_predicted_seg r).data k i j ch) 4 (by omega)
  have h16 := toInt16_small
    ((npArgmaxIdx (fun ch => (resize_predicted_seg r).data k i j ch) 4 : ℕ) : ℤ)
    (by omega) (by omega)
  rw [h16]
  unfold IsLabel
  omega

theorem reconcileStep_ok (pv : Arr3 ℤ) (ref : Nat × Nat × Nat) (a : Arr3 ℤ) (z : Nat)
    (hH : ref.1 ≠ 0) (hW : ref.2.1 ≠ 0) (hr : pv.d0 ≠ 0) (hc : pv.d1 ≠ 0) :
    reconcileStep pv ref (.ok a) z =
      .ok (setLayerAx a z ((cv2ResizeNearest (pv.sliceAx z) ref.2.1 ref.1).mapVals
        toInt16)) := by
  unfold reconcileStep cv2ResizeNearestE
  rw [if_neg (by push_neg; exact ⟨hW, hH, hr, hc⟩)]
  rfl

theorem reconcileStep_error (pv : Arr3 ℤ) (ref : Nat × Nat × Nat) (e : PredError)
    (z : Nat) : reconcileStep pv ref (.error e) z = .error e := rfl

theorem foldl_reconcileStep_error (pv : Arr3 ℤ) (ref : Nat × Nat × Nat) :
    ∀ (l : List Nat) (e : PredError),
      l.foldl (reconcileStep pv ref) (.error e) = .error e := by
  intro l
  induction l with
  | nil => intro e; rfl
  | cons z t ih =>
    intro e
    rw [List.foldl_cons, reconcileStep_error]
    exact ih e

theorem foldl_reconcileStep_shape (pv : Arr3 ℤ) (ref : Nat × Nat × Nat)
    (hH : ref.1 ≠ 0) (hW : ref.2.1 ≠ 0) (hr : pv.d0 ≠ 0) (hc : pv.d1 ≠ 0) :
    ∀ (l : List Nat) (a : Arr3 ℤ),
      okShape (l.foldl (reconcileStep pv ref) (.ok a)) = some a.shape := by
  intro l
  induction l with
  | nil => intro a; rfl
  | cons z t ih =>
    intro a
    rw [List.foldl_cons, reconcileStep_ok pv ref a z hH hW hr hc, ih]
    rfl

theorem reconcileShape_okShape (pv : Arr3 ℤ) (ref : Nat × Nat × Nat)
    (hH : ref.1 ≠ 0) (hW : ref.2.1 ≠ 0) (hr : pv.d0 ≠ 0) (hc : pv.d1 ≠ 0) :
    okShape (reconcileShape pv ref) = some ref := by
  unfold reconcileShape
  rw [foldl_reconcileStep_shape pv ref hH hW hr hc]
  rfl

theorem foldl_reconcileStep_labels (pv : Arr3 ℤ) (ref : Nat × Nat × Nat)
    (hpv : ∀ i j k, IsLabel (pv.data i j k)) :
    ∀ (l : List Nat) (a : Arr3 ℤ), (∀ i j k, IsLabel (a.data i j k)) →
      ∀ v, l.foldl (reconcileStep pv ref) (.ok a) = .ok v →
        ∀ i j k, IsLabel (v.data i j k) := by
  intro l
  induction l with
  | nil =>
    intro a ha v hv
    cases hv
    exact ha
  | cons z t ih =>
    intro a ha v hv
    rw [List.foldl_cons] at hv
    by_cases hc2 : ref.2.1 = 0 ∨ ref.1 = 0 ∨ (pv.sliceAx z).rows = 0 ∨
        (pv.sliceAx z).cols = 0
    · have hstep : reconcileStep pv ref (.ok a) z = .error .cvError := by
        unfold reconcileStep cv2ResizeNearestE
        rw [if_pos hc2]
        rfl
      rw [hstep, foldl_reconcileStep_error] at hv
      exact absurd hv (by simp)
    · push_neg at hc2
      have hstep := reconcileStep_ok pv ref a z hc2.2.1 hc2.1 hc2.2.2.1 hc2.2.2.2
      rw [hstep] at hv
      refine ih _ ?_ v hv
      intro i2 j2 k2
      simp only [setLayerAx, Arr2.mapVals, cv2ResizeNearest, Arr3.sliceAx]
      by_cases hk : k2 = z
      · rw [if_pos hk]
        exact toInt16_label _ (hpv _ _ _)
      · rw [if_neg hk]
        exact ha i2 j2 k2

/-
Claim theorems.
-/

/-- C3: with no patient switch in between, the second
get_prediction_volume call for the same patient returns a bit-identical
result, the two calls together invoke the model at most once, and a
subsequent request for a different patient resets the cache flags and
invokes the model again (exactly one call). -/
theorem th_c3 (m : String → Option RawPred) (rootOf : String → String)
    (s : SessionState) (p q : String) (ref : Nat × Nat × Nat) (hq : q ≠ p) :
    (get_prediction_volume m rootOf (get_prediction_volume m rootOf s p ref).state
        p ref).result = (get_prediction_volume m rootOf s p ref).result ∧
    (get_prediction_volume m rootOf s p ref).modelCalls +
      (get_prediction_volume m rootOf (get_prediction_volume m rootOf s p ref).state
        p ref).modelCalls ≤ 1 ∧
    (get_prediction_volume m rootOf (get_prediction_volume m rootOf s p ref).state
        q ref).modelCalls = 1 := by
  have hcur1 : (predict_btn_click m (switch_patient_state s p) (rootOf p)).1.current_patient =
      some p := by
    rw [pbc_current, switch_current]
  have hflag1 := pbc_flag_true m (switch_patient_state s p) (rootOf p)
  have hstate : (get_prediction_volume m rootOf s p ref).state =
      (predict_btn_click m (switch_patient_state s p) (rootOf p)).1 := rfl
  have hswitch2 : switch_patient_state
      (predict_btn_click m (switch_patient_state s p) (rootOf p)).1 p =
      (predict_btn_click m (switch_patient_state s p) (rootOf p)).1 :=
    switch_self _ _ hcur1
  have hpbc2 : predict_btn_click m
      (predict_btn_click m (switch_patient_state s p) (rootOf p)).1 (rootOf p) =
      ((predict_btn_click m (switch_patient_state s p) (rootOf p)).1,
        (predict_btn_click m (switch_patient_state s p) (rootOf p)).1.pred_seg, 0) :=
    pbc_cached _ _ _ hflag1
  refine ⟨?_, ?_, ?_⟩
  · rw [hstate]
    show normalizePrediction (gpvRaw m rootOf
        (predict_btn_click m (switch_patient_state s p) (rootOf p)).1 p) ref =
      normalizePrediction (gpvRaw m rootOf s p) ref
    unfold gpvRaw
    rw [hswitch2, hpbc2, pbc_pred_seg]
  · rw [hstate]
    show (predict_btn_click m (switch_patient_state s p) (rootOf p)).2.2 +
      (predict_btn_click m (switch_patient_state
        (predict_btn_click m (switch_patient_state s p) (rootOf p)).1 p)
        (rootOf p)).2.2 ≤ 1
    rw [hswitch2, hpbc2]
    show (predict_btn_click m (switch_patient_state s p) (rootOf p)).2.2 + 0 ≤ 1
    have := pbc_calls_le m (switch_patient_state s p) (rootOf p)
    omega
  · rw [hstate]
    show (predict_btn_click m (switch_patient_state
        (predict_btn_click m (switch_patient_state s p) (rootOf p)).1 q)
        (rootOf q)).2.2 = 1
    generalize hX : (predict_btn_click m (switch_patient_state s p) (rootOf p)).1 = X
    rw [hX] at hcur1
    have hne : ¬(X.current_patient = some q) := by
      rw [hcur1]
      intro h
      exact hq (Option.some.inj h).symm
    unfold switch_patient_state
    rw [if_neg hne]
    unfold predict_btn_click
    rw [if_neg (by simp [patient_has_changed_update_token])]

/-- C3 witness: the fresh session state, two calls for patient "A" and a
switch to patient "B". -/
theorem th_c3_witness :
    (get_prediction_volume demoModelOk id
        (get_prediction_volume demoModelOk id demoState "A" (2, 2, 2)).state
        "A" (2, 2, 2)).result =
      (get_prediction_volume demoModelOk id demoState "A" (2, 2, 2)).result ∧
    (get_prediction_volume demoModelOk id demoState "A" (2, 2, 2)).modelCalls +
      (get_prediction_volume demoModelOk id
        (get_prediction_volume demoModelOk id demoState "A" (2, 2, 2)).state
        "A" (2, 2, 2)).modelCalls ≤ 1 ∧
    (get_prediction_volume demoModelOk id
        (get_prediction_volume demoModelOk id demoState "A" (2, 2, 2)).state
        "B" (2, 2, 2)).modelCalls = 1 :=
  th_c3 demoModelOk id demoState "A" "B" (2, 2, 2) (by decide)

/-- C4: on any volume whose voxels are all valid labels (the canonical
prediction invariant), the class-1, class-2 and class-3 voxel counts of
calculate_class_metrics sum to the total-tumor voxel count of
calculate_total_tumor_metrics. -/
theorem th_c4 (vol : Arr3 ℤ) (vvm : ℚ)
    (hlab : ∀ i < vol.d0, ∀ j < vol.d1, ∀ k < vol.d2, IsLabel (vol.data i j k)) :
    metricsVoxelCount (calculate_class_metrics vol vvm) 1 +
      metricsVoxelCount (calculate_class_metrics vol vvm) 2 +
      metricsVoxelCount (calculate_class_metrics vol vvm) 3 =
    (calculate_total_tumor_metrics vol vvm).voxel_count := by
  have h1 : metricsVoxelCount (calculate_class_metrics vol vvm) 1 = countClass vol 1 := rfl
  have h2 : metricsVoxelCount (calculate_class_metrics vol vvm) 2 = countClass vol 2 := rfl
  have h3 : metricsVoxelCount (calculate_class_metrics vol vvm) 3 = countClass vol 3 := rfl
  have ht : (calculate_total_tumor_metrics vol vvm).voxel_count = countTumor vol := rfl
  rw [h1, h2, h3, ht]
  unfold countClass countTumor
  simp only [← Finset.sum_add_distrib]
  refine Finset.sum_congr rfl fun i hi => Finset.sum_congr rfl fun j hj =>
    Finset.sum_congr rfl fun k hk => ?_
  have hx := hlab i (Finset.mem_range.mp hi) j (Finset.mem_range.mp hj) k
    (Finset.mem_range.mp hk)
  rcases hx with hx | hx | hx | hx <;> rw [hx] <;> decide

/-- C4 witness: a 1 x 1 x 2 labelled volume. -/
theorem th_c4_witness :
    metricsVoxelCount
        (calculate_class_metrics ⟨1, 1, 2, fun _ _ k => if k < 1 then 2 else 0⟩ 1) 1 +
      metricsVoxelCount
        (calculate_class_metrics ⟨1, 1, 2, fun _ _ k => if k < 1 then 2 else 0⟩ 1) 2 +
      metricsVoxelCount
        (calculate_class_metrics ⟨1, 1, 2, fun _ _ k => if k < 1 then 2 else 0⟩ 1) 3 =
    (calculate_total_tumor_metrics ⟨1, 1, 2, fun _ _ k => if k < 1 then 2 else 0⟩
        1).voxel_count :=
  th_c4 ⟨1, 1, 2, fun _ _ k => if k < 1 then 2 else 0⟩ 1 (by decide)

/-- C5 (amended): the 240 x 240 x 155 scenario with 1000 class-2 voxels
and unit voxel volume reports voxel_count 1000, volume_mm3 1000,
volume_cm3 1 and percentage 0.01 (the exact ratio rounded to two
decimals); in general every per-class value is the spec formula rounded
to two decimal places, with a zero percentage on an empty volume. -/
theorem th_c5 :
    (∀ vol : Arr3 ℤ, vol.d0 = 240 → vol.d1 = 240 → vol.d2 = 155 →
      countClass vol 2 = 1000 →
      (calculate_class_metrics vol 1).lookup 2 = some ⟨1000, 1000, 1, 1 / 100⟩) ∧
    (∀ (vol : Arr3 ℤ) (vvm : ℚ) (c : ℤ), c = 1 ∨ c = 2 ∨ c = 3 →
      (calculate_class_metrics vol vvm).lookup c =
        some ⟨countClass vol c, pyRound2 ((countClass vol c : ℚ) * vvm),
          pyRound2 ((countClass vol c : ℚ) * vvm / 1000),
          pyRound2 (if 0 < vol.size then
            (countClass vol c : ℚ) / (vol.size : ℚ) * 100 else 0)⟩) := by
  constructor
  · intro vol h0 h1 h2 hc
    have hlk : (calculate_class_metrics vol 1).lookup 2 =
        some (classMetricsFor vol 1 2) := rfl
    rw [hlk]
    have hsize : vol.size = 8928000 := by rw [Arr3.size, h0, h1, h2]
    unfold classMetricsFor
    rw [hsize, hc]
    have hmm3 : pyRound2 ((1000 : ℚ) * 1) = 1000 := by
      norm_num [pyRound2, roundHalfEven, Int.fract, round_eq]
    have hcm3 : pyRound2 ((1000 : ℚ) * 1 / 1000) = 1 := by
      norm_num [pyRound2, roundHalfEven, Int.fract, round_eq]
    have hpct : pyRound2 (if 0 < 8928000 then (1000 : ℚ) / 8928000 * 100 else 0) =
        1 / 100 := by
      rw [if_pos (by norm_num)]
      norm_num [pyRound2, roundHalfEven, Int.fract, round_eq]
    push_cast at hmm3 hcm3 hpct ⊢
    rw [hmm3, hcm3, hpct]
  · rintro vol vvm c (rfl | rfl | rfl) <;> rfl

/-- C5 witness: the scenario at an explicit volume with 1000 class-2
voxels, plus the general formula at the small demonstration volume. -/
theorem th_c5_witness :
    (calculate_class_metrics c5BigVol 1).lookup 2 = some ⟨1000, 1000, 1, 1 / 100⟩ ∧
    (calculate_class_metrics c5CexVol 1).lookup 2 =
      some ⟨countClass c5CexVol 2, pyRound2 ((countClass c5CexVol 2 : ℚ) * 1),
        pyRound2 ((countClass c5CexVol 2 : ℚ) * 1 / 1000),
        pyRound2 (if 0 < c5CexVol.size then
          (countClass c5CexVol 2 : ℚ) / (c5CexVol.size : ℚ) * 100 else 0)⟩ :=
  ⟨th_c5.1 c5BigVol rfl rfl rfl c5BigVol_count,
   th_c5.2 c5CexVol 1 2 (Or.inr (Or.inl rfl))⟩

/-- C5 counterexample: the claim's unrounded percentage formula fails on
the code: a volume with 1 class-2 voxel out of 3 reports percentage
33.33, not 100/3. -/
theorem th_c5_counterexample :
    ((calculate_class_metrics c5CexVol 1).lookup 2).map ClassMetrics.percentage =
      some (3333 / 100) ∧
    (3333 / 100 : ℚ) ≠ (1 : ℚ) / 3 * 100 := by
  constructor
  · have hlk : (calculate_class_metrics c5CexVol 1).lookup 2 =
        some (classMetricsFor c5CexVol 1 2) := rfl
    rw [hlk]
    show some ((classMetricsFor c5CexVol 1 2).percentage) = some (3333 / 100)
    refine congrArg some ?_
    have hcount : countClass c5CexVol 2 = 1 := by decide
    have hsize : c5CexVol.size = 3 := rfl
    unfold classMetricsFor
    rw [hsize, hcount]
    norm_num [pyRound2, roundHalfEven, Int.fract, round_eq]
  · norm_num


/-- C1: for every image volume, prediction volume, plane and integer
slice index (over nonempty volumes, the domain on which the python code
is defined), extract_slice_by_plane returns a pair whose shapes agree,
and whenever the raw extracted prediction slice's shape differs from the
image slice's, the returned prediction slice is the nearest-neighbor
resample of the raw prediction slice to the image slice's shape. -/
theorem th_c1 (img : Arr3 ℚ) (pred_vol : Arr3 ℤ) (plane : Plane) (slice_idx : Int)
    (hi0 : 0 < img.d0) (hi1 : 0 < img.d1) (hi2 : 0 < img.d2)
    (hp0 : 0 < pred_vol.d0) (hp1 : 0 < pred_vol.d1) (hp2 : 0 < pred_vol.d2) :
    (extract_slice_by_plane img pred_vol plane slice_idx).2.shape =
      (extract_slice_by_plane img pred_vol plane slice_idx).1.shape ∧
    ((raw_slices img pred_vol plane slice_idx).2.shape ≠
        (raw_slices img pred_vol plane slice_idx).1.shape →
      (extract_slice_by_plane img pred_vol plane slice_idx).2 =
        (cv2ResizeNearest (raw_slices img pred_vol plane slice_idx).2
          (raw_slices img pred_vol plane slice_idx).1.cols
          (raw_slices img pred_vol plane slice_idx).1.rows).mapVals toInt16) := by
  by_cases h : (raw_slices img pred_vol plane slice_idx).2.shape =
      (raw_slices img pred_vol plane slice_idx).1.shape
  · constructor
    · simp only [extract_slice_by_plane, if_pos h]
      exact h
    · intro hne
      exact absurd h hne
  · constructor
    · simp only [extract_slice_by_plane, if_neg h]
      simp [Arr2.shape, Arr2.mapVals, cv2ResizeNearest]
    · intro _
      simp only [extract_slice_by_plane, if_neg h]

/-- C1 witness: a concrete instance with a genuine shape mismatch. -/
theorem th_c1_witness :
    (extract_slice_by_plane ⟨2, 2, 2, fun _ _ _ => 0⟩ ⟨1, 1, 1, fun _ _ _ => 1⟩
        Plane.Axial 0).2.shape =
      (extract_slice_by_plane ⟨2, 2, 2, fun _ _ _ => 0⟩ ⟨1, 1, 1, fun _ _ _ => 1⟩
        Plane.Axial 0).1.shape ∧
    (extract_slice_by_plane ⟨2, 2, 2, fun _ _ _ => 0⟩ ⟨1, 1, 1, fun _ _ _ => 1⟩
        Plane.Axial 0).2 =
      (cv2ResizeNearest
        (raw_slices ⟨2, 2, 2, fun _ _ _ => 0⟩ ⟨1, 1, 1, fun _ _ _ => 1⟩ Plane.Axial 0).2
        (raw_slices ⟨2, 2, 2, fun _ _ _ => 0⟩ ⟨1, 1, 1, fun _ _ _ => 1⟩ Plane.Axial 0).1.cols
        (raw_slices ⟨2, 2, 2, fun _ _ _ => 0⟩ ⟨1, 1, 1, fun _ _ _ => 1⟩ Plane.Axial
          0).1.rows).mapVals toInt16 := by
  have h := th_c1 ⟨2, 2, 2, fun _ _ _ => 0⟩ ⟨1, 1, 1, fun _ _ _ => 1⟩ Plane.Axial 0
    (by decide) (by decide) (by decide) (by decide) (by decide) (by decide)
  exact ⟨h.1, h.2 (by decide)⟩

/-- C2: for every out-of-range slice index (on a nonempty slicing axis),
extract_slice_by_plane does not fail and returns exactly the result of
calling it with the nearest in-range index. -/
theorem th_c2 (img : Arr3 ℚ) (pred_vol : Arr3 ℤ) (plane : Plane) (slice_idx : Int)
    (hm : 0 < planeExtent img plane)
    (hout : slice_idx < 0 ∨ (planeExtent img plane : Int) ≤ slice_idx) :
    extract_slice_by_plane img pred_vol plane slice_idx =
      extract_slice_by_plane img pred_vol plane
        (nearestInRange slice_idx (planeExtent img plane)) := by
  simp only [extract_slice_by_plane]
  rw [raw_slices_nearest img pred_vol plane slice_idx hm hout]

/-- C2 witness: index 5 on an axial axis of extent 3 behaves as index 2. -/
theorem th_c2_witness :
    extract_slice_by_plane ⟨1, 1, 3, fun _ _ _ => 0⟩ ⟨1, 1, 3, fun _ _ _ => 1⟩
        Plane.Axial 5 =
      extract_slice_by_plane ⟨1, 1, 3, fun _ _ _ => 0⟩ ⟨1, 1, 3, fun _ _ _ => 1⟩
        Plane.Axial (nearestInRange 5 3) :=
  th_c2 ⟨1, 1, 3, fun _ _ _ => 0⟩ ⟨1, 1, 3, fun _ _ _ => 1⟩ Plane.Axial 5
    (by decide) (by decide)

/-- C6: filtering with "None" yields an all-zero array of the input's
shape, "All" returns the input unchanged, and "2" keeps exactly the
voxels equal to 2 and zeroes every other voxel. -/
theorem th_c6 (pred_slice : Arr2 ℤ) :
    ((filter_prediction_by_class pred_slice "None").rows = pred_slice.rows ∧
     (filter_prediction_by_class pred_slice "None").cols = pred_slice.cols ∧
     ∀ i j, (filter_prediction_by_class pred_slice "None").data i j = 0) ∧
    filter_prediction_by_class pred_slice "All" = pred_slice ∧
    ((filter_prediction_by_class pred_slice "2").rows = pred_slice.rows ∧
     (filter_prediction_by_class pred_slice "2").cols = pred_slice.cols ∧
     ∀ i j, (filter_prediction_by_class pred_slice "2").data i j =
       if pred_slice.data i j = 2 then 2 else 0) := by
  have hNone : filter_prediction_by_class pred_slice "None" = np_zeros_like pred_slice := rfl
  have hAll : filter_prediction_by_class pred_slice "All" = pred_slice := rfl
  have h2v : strToInt "2" = 2 := rfl
  refine ⟨⟨?_, ?_, ?_⟩, hAll, ⟨rfl, rfl, ?_⟩⟩
  · rw [hNone]; rfl
  · rw [hNone]; rfl
  · intro i j
    rw [hNone]; rfl
  · intro i j
    show (if pred_slice.data i j = strToInt "2" then pred_slice.data i j else 0) =
      if pred_slice.data i j = 2 then 2 else 0
    rw [h2v]
    by_cases hv : pred_slice.data i j = 2
    · rw [if_pos hv, if_pos hv, hv]
    · rw [if_neg hv, if_neg hv]

/-- C7 (amended): get_prediction_volume fails when the raw prediction is
None and when its rank or channel count is not 4; there is no reference-
shape validation: whenever the raw volume passes the rank/channel check
and the first two reference dimensions are positive the call succeeds and
returns a volume whose shape equals the reference shape, including a
zero third dimension (empty volume). -/
theorem th_c7 (m : String → Option RawPred) (rootOf : String → String)
    (s : SessionState) (p : String) (ref : Nat × Nat × Nat) :
    (gpvRaw m rootOf s p = none →
      (get_prediction_volume m rootOf s p ref).result = .error .predictionFailed) ∧
    (∀ r, gpvRaw m rootOf s p = some r →
      (r.shape.length ≠ 4 ∨ r.shape.getD 3 0 ≠ 4) →
      (get_prediction_volume m rootOf s p ref).result =
        .error (.invalidShape r.shape)) ∧
    (∀ r, gpvRaw m rootOf s p = some r → r.shape.length = 4 →
      r.shape.getD 3 0 = 4 → 0 < ref.1 → 0 < ref.2.1 →
      okShape (get_prediction_volume m rootOf s p ref).result = some ref) := by
  have hres : (get_prediction_volume m rootOf s p ref).result =
      normalizePrediction (gpvRaw m rootOf s p) ref := rfl
  refine ⟨?_, ?_, ?_⟩
  · intro h
    rw [hres, h]
    rfl
  · intro r h hbad
    rw [hres, h]
    simp only [normalizePrediction]
    rw [if_pos hbad]
  · intro r h hlen hch hH hW
    rw [hres, h]
    simp only [normalizePrediction]
    rw [if_neg (by push_neg; exact ⟨hlen, hch⟩)]
    by_cases hsh : (moveaxis02 (argmaxClasses (resize_predicted_seg r))).shape = ref
    · rw [if_pos hsh]
      show some (moveaxis02 (argmaxClasses (resize_predicted_seg r))).shape = some ref
      rw [hsh]
    · rw [if_neg hsh]
      exact reconcileShape_okShape (moveaxis02 (argmaxClasses (resize_predicted_seg r)))
        ref (by omega) (by omega) (by show (240 : ℕ) ≠ 0; decide)
        (by show (240 : ℕ) ≠ 0; decide)

/-- C7 witness: the three behaviors at concrete inputs — a None
prediction, a rank-3 raw volume, and a well-formed run whose result
shape equals the reference shape. -/
theorem th_c7_witness :
    (get_prediction_volume demoModelNone id demoState "p" (2, 2, 2)).result =
      .error .predictionFailed ∧
    (get_prediction_volume demoModelBad id demoState "p" (2, 2, 2)).result =
      .error (.invalidShape [3, 4, 4]) ∧
    okShape (get_prediction_volume demoModelOk id demoState "p" (2, 3, 4)).result =
      some (2, 3, 4) :=
  ⟨(th_c7 demoModelNone id demoState "p" (2, 2, 2)).1 rfl,
   (th_c7 demoModelBad id demoState "p" (2, 2, 2)).2.1 demoRawBad rfl (by decide),
   (th_c7 demoModelOk id demoState "p" (2, 3, 4)).2.2 demoRawOk rfl rfl rfl
     (by decide) (by decide)⟩

/-- C7 counterexample: the claim's InvalidReferenceShape clause is false
on the code: with reference shape (1, 1, 0) — a zero dimension — the
call succeeds and returns an empty volume of that shape instead of
failing. -/
theorem th_c7_counterexample :
    okShape (get_prediction_volume demoModelOk id demoState "p" (1, 1, 0)).result =
      some (1, 1, 0) := by
  decide

/-- C10: every volume returned successfully by get_prediction_volume
holds only class labels 0..3: the argmax over the four channels yields
0..3 and the nearest-neighbor layer resize only replicates existing
values. -/
theorem th_c10 (m : String → Option RawPred) (rootOf : String → String)
    (s : SessionState) (p : String) (ref : Nat × Nat × Nat) (i j k : Nat) :
    okLabels (get_prediction_volume m rootOf s p ref).result i j k := by
  have hres : (get_prediction_volume m rootOf s p ref).result =
      normalizePrediction (gpvRaw m rootOf s p) ref := rfl
  rw [hres]
  cases hraw : gpvRaw m rootOf s p with
  | none => exact trivial
  | some r =>
    by_cases hbad : (r.shape.length ≠ 4 ∨ r.shape.getD 3 0 ≠ 4)
    · simp only [normalizePrediction]
      rw [if_pos hbad]
      exact trivial
    · have hch : r.shape.getD 3 0 = 4 := by
        push_neg at hbad
        exact hbad.2
      have hlab := pred_vol_labels r hch
      simp only [normalizePrediction]
      rw [if_neg hbad]
      by_cases hsh : (moveaxis02 (argmaxClasses (resize_predicted_seg r))).shape = ref
      · rw [if_pos hsh]
        exact hlab i j k
      · rw [if_neg hsh]
        cases hrec : reconcileShape (moveaxis02 (argmaxClasses (resize_predicted_seg r)))
            ref with
        | error e =>
          exact trivial
        | ok v =>
          show IsLabel (v.data i j k)
          unfold reconcileShape at hrec
          exact foldl_reconcileStep_labels _ ref hlab _ _
            (fun _ _ _ => Or.inl rfl) v hrec i j k

/-- C8: for an invertible affine, world_to_voxel returns the rounded
first three components of the unique solution of
affine . voxel = [x, y, z, 1] (i.e. inverse(affine) . [x, y, z, 1]); for
a singular affine it falls back to the raw world coordinates truncated
to integers; in particular the identity affine maps (-92, 114, 61) to
(-92, 114, 61) and so does the degraded fallback on the zero affine. -/
theorem th_c8 (A : Matrix (Fin 4) (Fin 4) ℚ) (x y z : ℚ) (v : Fin 4 → ℚ) :
    (A.det ≠ 0 → A.mulVec v = ![x, y, z, 1] →
      world_to_voxel A x y z = (npRound (v 0), npRound (v 1), npRound (v 2))) ∧
    (A.det = 0 → world_to_voxel A x y z = (ratTrunc x, ratTrunc y, ratTrunc z)) ∧
    world_to_voxel (1 : Matrix (Fin 4) (Fin 4) ℚ) (-92) 114 61 = (-92, 114, 61) ∧
    world_to_voxel (0 : Matrix (Fin 4) (Fin 4) ℚ) (-92) 114 61 = (-92, 114, 61) := by
  have hsing : ∀ (B : Matrix (Fin 4) (Fin 4) ℚ) (a b c : ℚ), B.det = 0 →
      world_to_voxel B a b c = (ratTrunc a, ratTrunc b, ratTrunc c) := by
    intro B a b c h
    simp only [world_to_voxel]
    rw [if_pos h]
  have hgen : ∀ (B : Matrix (Fin 4) (Fin 4) ℚ) (a b c : ℚ) (w : Fin 4 → ℚ),
      B.det ≠ 0 → B.mulVec w = ![a, b, c, 1] →
      world_to_voxel B a b c = (npRound (w 0), npRound (w 1), npRound (w 2)) := by
    intro B a b c w h hw
    simp only [world_to_voxel, npLinalgInv]
    rw [if_neg h, ← hw, Matrix.mulVec_mulVec, Matrix.smul_mul, Matrix.adjugate_mul,
      smul_smul, inv_mul_cancel₀ h, one_smul, Matrix.one_mulVec]
  refine ⟨hgen A x y z v, hsing A x y z, ?_, ?_⟩
  · rw [hgen 1 (-92) 114 61 ![(-92 : ℚ), 114, 61, 1] (by simp) (Matrix.one_mulVec _)]
    have e0 : (![(-92 : ℚ), 114, 61, 1]) 0 = -92 := rfl
    have e1 : (![(-92 : ℚ), 114, 61, 1]) 1 = 114 := rfl
    have e2 : (![(-92 : ℚ), 114, 61, 1]) 2 = 61 := rfl
    rw [e0, e1, e2]
    have r0 : npRound (-92 : ℚ) = -92 := by
      norm_num [npRound, roundHalfEven, Int.fract, round_eq]
    have r1 : npRound (114 : ℚ) = 114 := by
      norm_num [npRound, roundHalfEven, Int.fract, round_eq]
    have r2 : npRound (61 : ℚ) = 61 := by
      norm_num [npRound, roundHalfEven, Int.fract, round_eq]
    rw [r0, r1, r2]
  · rw [hsing 0 (-92) 114 61 (by simp)]
    have t0 : ratTrunc (-92 : ℚ) = -92 := by
      have hc : ((-92 : ℤ) : ℚ) = (-92 : ℚ) := by norm_num
      rw [ratTrunc, if_neg (by norm_num), ← hc, Int.ceil_intCast]
    have t1 : ratTrunc (114 : ℚ) = 114 := by norm_num [ratTrunc]
    have t2 : ratTrunc (61 : ℚ) = 61 := by norm_num [ratTrunc]
    rw [t0, t1, t2]

/-- C8 witness: the two dispatch branches at the identity and the zero
affine with world coordinates (-92, 114, 61). -/
theorem th_c8_witness :
    world_to_voxel (1 : Matrix (Fin 4) (Fin 4) ℚ) (-92) 114 61 =
      (npRound ((![(-92 : ℚ), 114, 61, 1]) 0), npRound ((![(-92 : ℚ), 114, 61, 1]) 1),
        npRound ((![(-92 : ℚ), 114, 61, 1]) 2)) ∧
    world_to_voxel (0 : Matrix (Fin 4) (Fin 4) ℚ) (-92) 114 61 =
      (ratTrunc (-92), ratTrunc 114, ratTrunc 61) :=
  ⟨(th_c8 1 (-92) 114 61 ![(-92 : ℚ), 114, 61, 1]).1 (by simp) (Matrix.one_mulVec _),
   (th_c8 0 (-92) 114 61 ![(-92 : ℚ), 114, 61, 1]).2.1 (by simp)⟩

/-- C9: the sweep generator returns its explicit no-frames error exactly
when the frame list is empty, and the frame list is empty exactly when
the image extent along the plane's slicing axis is zero; with at least
one frame no error is returned. -/
theorem th_c9 (img : Arr3 ℚ) (pred_vol : Arr3 ℤ) (plane : Plane)
    (selected_class : String) :
    (gifFailed (get_gif img pred_vol plane selected_class) = true ↔
      (get_gif_frames img pred_vol plane selected_class).length = 0) ∧
    ((get_gif_frames img pred_vol plane selected_class).length = 0 ↔
      planeExtent img plane = 0) ∧
    (get_gif img pred_vol plane selected_class =
        .error (.noFrames (planeExtent img plane)) ↔
      planeExtent img plane = 0) := by
  have hstride : 1 ≤ (get_gif_animation_params plane (planeExtent img plane)).1 := by
    cases plane <;> exact le_max_left 1 _
  have hlen : (get_gif_frames img pred_vol plane selected_class).length =
      (planeExtent img plane + (get_gif_animation_params plane (planeExtent img plane)).1 - 1) /
        (get_gif_animation_params plane (planeExtent img plane)).1 := by
    simp [get_gif_frames, pyRange]
  have hempty : (get_gif_frames img pred_vol plane selected_class).length = 0 ↔
      planeExtent img plane = 0 := by
    rw [hlen]
    rw [Nat.div_eq_zero_iff (by omega)]
    omega
  refine ⟨?_, hempty, ?_⟩
  · by_cases h : (get_gif_frames img pred_vol plane selected_class).length = 0
    · simp only [get_gif, if_pos h, gifFailed]
      simpa using h
    · simp only [get_gif, if_neg h, gifFailed]
      simpa using h
  · by_cases h : (get_gif_frames img pred_vol plane selected_class).length = 0
    · simp only [get_gif, if_pos h]
      simpa using hempty.mp h
    · simp only [get_gif, if_neg h]
      constructor
      · intro hx
        exact absurd hx (by simp)
      · intro hz
        exact absurd (hempty.mpr hz) h

end MedSeg
